import Mathlib

/-
Verification of examples/text_summarization/extractive_summarization_cnndm_distributed_train.py.

The script is straight-line orchestration code: it parses CLI arguments, sets a few
environment variables at import time, spawns one worker per local GPU, and each worker
joins a process group, acquires data, calls an external fit, and (on global rank 0)
saves the model and writes predictions.  We embed it shallowly: each externally visible
call a worker makes becomes an event, and main_worker becomes a function from the parsed
configuration (plus oracles for the values returned by external calls: the preprocessed
datasets and the prediction list) to the list of events it emits, in program order.
Numeric step counts are modelled as rationals (Python floats arise from 1e1 / 5e2 and
the division by world size; all values involved are exact).
-/

namespace DistExtSum

/-- Parsed command-line configuration, one field per argparse argument of the script,
with argparse types carried over (int becomes Int, float becomes a rational,
str becomes String, defaults of None become Option String). -/
structure Args where
  rank : Int
  dist_url : String
  node_count : Int
  cache_dir : String
  data_dir : String
  output_dir : String
  quick_run : String
  model_name : String
  encoder : String
  max_pos_length : Int
  learning_rate : ℚ
  batch_size : Int
  max_steps : ℚ
  warmup_steps : ℚ
  top_n : Int
  summary_filename : String
  model_filename : String
  train_file : Option String
  test_file : Option String
  deriving DecidableEq, Repr

/-- os.path.join for two POSIX path components: inserts a separator unless the
first component is empty or already ends with one. -/
def osPathJoin (a b : String) : String :=
  if a = "" then b
  else if a.endsWith "/" then a ++ b
  else a ++ "/" ++ b

/-- How often the statistics reports show up in training, unit is step (module constant). -/
def REPORT_EVERY : Int := 100

/-- Module constant controlling the checkpoint cadence passed to fit on rank 0. -/
def SAVE_EVERY : Int := 1000

/-- Python str.lower(): lowercases each character (the script only compares the
result against the ASCII literal "false"). -/
def pyLower (s : String) : String := String.mk (s.data.map Char.toLower)

/-- The MAX_STEPS local of main_worker: initialised to 1e1 and overwritten with
args.max_steps when args.quick_run.lower() == "false". -/
def MAX_STEPS (args : Args) : ℚ :=
  if pyLower args.quick_run = "false" then args.max_steps else 10

/-- The WARMUP_STEPS local of main_worker: initialised to 5e2 and overwritten with
args.warmup_steps when args.quick_run.lower() == "false". -/
def WARMUP_STEPS (args : Args) : ℚ :=
  if pyLower args.quick_run = "false" then args.warmup_steps else 500

/-- The TOP_N local of main_worker: initialised to 10 and overwritten with -1
when args.quick_run.lower() == "false". -/
def TOP_N (args : Args) : Int :=
  if pyLower args.quick_run = "false" then -1 else 10

/-- Python list slicing l[0:stop]: a negative stop counts from the end (clamped at 0),
a nonnegative stop is clamped at the length. -/
def pySlice0 {α : Type} (l : List α) (stop : Int) : List α :=
  let n : Int := l.length
  let s : Int := if stop < 0 then max (n + stop) 0 else min stop n
  l.take s.toNat

/-- The body of _write_list_to_file: for each item in order, the file handle receives
"%s\n" % item, so the final file content is the left fold of those writes. -/
def writeListToFile (list_items : List String) : String :=
  list_items.foldl (fun acc item => acc ++ (item ++ "\n")) ""

/-- Number of lines of a text file whose lines are newline-terminated records:
the number of newline characters in its content. -/
def numLines (s : String) : Nat :=
  s.toList.count '\n'

/-- The keyword arguments of the summarizer.fit call inside main_worker. -/
structure FitArgs (Doc : Type) where
  train_dataset : List Doc
  num_gpus : Int
  batch_size : Int
  gradient_accumulation_steps : Int
  max_steps : ℚ
  learning_rate : ℚ
  warmup_steps : ℚ
  verbose : Bool
  report_every : Int
  clip_grad_norm : Bool
  local_rank : Int
  save_every : Int
  world_size : Int
  rank : Int
  deriving DecidableEq, Repr

/-- Externally visible calls a worker makes, in program order.  Doc is the opaque type
of preprocessed documents handled by the external library. -/
inductive Ev (Doc : Type) where
  | initProcessGroup (backend init_method : String) (world_size rank : Int)
  | barrier
  | cnndmSummarizationDataset (top_n : Int) (local_cache_path : String)
  | preprocessCall (oracle_mode : String)
  | torchLoad (path : String)
  | fitCall (fa : FitArgs Doc)
  | saveModel (path : String)
  | predictCall (dataset : List Doc) (batch_size : Int)
  | writeFile (path content : String)
  | destroyProcessGroup
  deriving DecidableEq, Repr

/-- The keyword arguments main_worker passes to summarizer.fit, transliterated from the
call site: max_steps is MAX_STEPS / world_size while warmup_steps is WARMUP_STEPS,
and save_every is -1 unless the global rank is in [-1, 0]. -/
def workerFitArgs {Doc : Type} (local_rank ngpus_per_node : Int) (args : Args)
    (ext_sum_train : List Doc) : FitArgs Doc :=
  let rank := args.rank * ngpus_per_node + local_rank
  let world_size := args.node_count * ngpus_per_node
  { train_dataset := ext_sum_train
    num_gpus := world_size
    batch_size := args.batch_size
    gradient_accumulation_steps := 1
    max_steps := MAX_STEPS args / (world_size : ℚ)
    learning_rate := args.learning_rate
    warmup_steps := WARMUP_STEPS args
    verbose := true
    report_every := REPORT_EVERY
    clip_grad_norm := false
    local_rank := local_rank
    save_every := if ¬(rank = -1 ∨ rank = 0) then -1 else SAVE_EVERY
    world_size := world_size
    rank := rank }

/-- The event trace of main_worker(local_rank, ngpus_per_node, summarizer, args),
statement by statement.  ext_sum_train and ext_sum_test are the datasets produced by
the data-acquisition section (external calls), and prediction is the list of summary
strings returned by summarizer.predict; both are oracles for external return values. -/
def mainWorkerTrace {Doc : Type} (local_rank ngpus_per_node : Int) (args : Args)
    (ext_sum_train ext_sum_test : List Doc) (prediction : List String) : List (Ev Doc) :=
  let rank := args.rank * ngpus_per_node + local_rank
  let world_size := args.node_count * ngpus_per_node
  [Ev.initProcessGroup "nccl" args.dist_url world_size rank]
  ++ (if ¬(local_rank = -1 ∨ local_rank = 0) then [Ev.barrier] else [])
  ++ (match args.train_file, args.test_file with
      | some trf, some tef =>
        [Ev.torchLoad (osPathJoin args.data_dir trf),
         Ev.torchLoad (osPathJoin args.data_dir tef)]
      | _, _ =>
        [Ev.cnndmSummarizationDataset (TOP_N args) args.data_dir,
         Ev.preprocessCall "greedy",
         Ev.preprocessCall "greedy"])
  ++ (if local_rank = -1 ∨ local_rank = 0 then [Ev.barrier] else [])
  ++ [Ev.fitCall (workerFitArgs local_rank ngpus_per_node args ext_sum_train)]
  ++ [Ev.barrier]
  ++ (if (local_rank = -1 ∨ local_rank = 0) ∧ args.rank = 0 then
        [Ev.saveModel (osPathJoin args.output_dir args.model_filename),
         Ev.predictCall (pySlice0 ext_sum_test (TOP_N args)) 128,
         Ev.writeFile (osPathJoin args.output_dir args.summary_filename)
           (writeListToFile prediction)]
      else [])
  ++ [Ev.destroyProcessGroup]

/-- The traces of the workers spawned by main: mp.spawn runs main_worker with
local_rank 0, 1, ..., nprocs-1 where nprocs = torch.cuda.device_count(). -/
def mainTrace {Doc : Type} (device_count : Nat) (args : Args)
    (ext_sum_train ext_sum_test : List Doc) (prediction : List String) :
    List (List (Ev Doc)) :=
  (List.range device_count).map (fun l : Nat =>
    mainWorkerTrace (l : Int) (device_count : Int) args ext_sum_train ext_sum_test
      prediction)

/-- os.environ[key] = value on an environment mapping. -/
def setEnv (env : String → Option String) (key value : String) :
    String → Option String :=
  fun q => if q = key then some value else env q

/-- The three os.environ assignments executed at module import, in source order;
device_count is torch.cuda.device_count().  The function takes no Args: the
assignments happen before argument parsing and depend on no CLI flag. -/
def moduleImportEnv (device_count : Nat) (env : String → Option String) :
    String → Option String :=
  setEnv
    (setEnv (setEnv env "NCCL_IB_DISABLE" "0")
      "OMP_NUM_THREADS" (toString device_count))
    "KMP_AFFINITY" "verbose"

/-- Executes a list of events under a fault model: failAt says which calls raise.
Since the script has no try/except, the first raising call stops execution; the
result is the list of calls actually executed plus the propagated error, if any. -/
def runEvents {Doc : Type} (failAt : Ev Doc → Option String) :
    List (Ev Doc) → List (Ev Doc) × Option String
  | [] => ([], none)
  | e :: rest =>
    match failAt e with
    | some msg => ([], some msg)
    | none =>
      let p := runEvents failAt rest
      (e :: p.1, p.2)

/-- Recognises the barrier event. -/
def isBarrier {Doc : Type} : Ev Doc → Bool
  | Ev.barrier => true
  | _ => false

/-- Recognises the events of the data-acquisition section. -/
def isDataEvent {Doc : Type} : Ev Doc → Bool
  | Ev.cnndmSummarizationDataset _ _ => true
  | Ev.preprocessCall _ => true
  | Ev.torchLoad _ => true
  | _ => false

/-- Recognises the fit call. -/
def isFitCall {Doc : Type} : Ev Doc → Bool
  | Ev.fitCall _ => true
  | _ => false

/-- Recognises the predict call. -/
def isPredictCall {Doc : Type} : Ev Doc → Bool
  | Ev.predictCall _ _ => true
  | _ => false

/-- Recognises the three actions of the rank-0 finalization section:
save_model, predict, and the summary-file write. -/
def isRankZeroAction {Doc : Type} : Ev Doc → Bool
  | Ev.saveModel _ => true
  | Ev.predictCall _ _ => true
  | Ev.writeFile _ _ => true
  | _ => false

/-- A configuration with every argparse default (quick_run "false",
train_file and test_file absent). -/
def exampleArgs : Args :=
  { rank := 0
    dist_url := "tcp://127.0.0.1:29501"
    node_count := 1
    cache_dir := "./"
    data_dir := "./"
    output_dir := "./"
    quick_run := "false"
    model_name := "distilbert-base-uncased"
    encoder := "transformer"
    max_pos_length := 512
    learning_rate := 1 / 1000
    batch_size := 5
    max_steps := 10000
    warmup_steps := 5000
    top_n := 3
    summary_filename := "generated_summaries.txt"
    model_filename := "dist_extsum_model.pt"
    train_file := none
    test_file := none }

/-- The same configuration with pre-serialized dataset files supplied. -/
def exampleArgsFiles : Args :=
  { exampleArgs with
    train_file := some "train_full.pt"
    test_file := some "test_full.pt" }

/-- A fault model under which the fit call raises and every other call succeeds. -/
def failDemo : Ev Unit → Option String :=
  fun e => if isFitCall e then some "RuntimeError" else none

/-- The calls a single-GPU single-node worker executes before its fit call under
the default configuration. -/
def demoPrefixEvents : List (Ev Unit) :=
  [Ev.initProcessGroup "nccl" "tcp://127.0.0.1:29501" 1 0,
   Ev.cnndmSummarizationDataset (-1) "./",
   Ev.preprocessCall "greedy",
   Ev.preprocessCall "greedy",
   Ev.barrier]

end DistExtSum

namespace DistExtSum

/-- Helper: every worker trace contains exactly one fit call, carrying the
keyword arguments of the summarizer.fit call site. -/
theorem fitCall_filter {Doc : Type} (l n : Int) (args : Args) (tr te : List Doc)
    (pr : List String) :
    (mainWorkerTrace l n args tr te pr).filter (fun e => isFitCall e) =
      [Ev.fitCall (workerFitArgs l n args tr)] := by
  by_cases h1 : l = -1 ∨ l = 0 <;>
  by_cases h2 : args.rank = 0 <;>
  rcases htr : args.train_file with _ | trf <;>
  rcases hte : args.test_file with _ | tef <;>
  simp [mainWorkerTrace, h1, h2, htr, hte, isFitCall]

/-- Helper: every worker trace ends with the destroy_process_group call of cleanup,
and that call occurs nowhere earlier in the trace. -/
theorem destroy_last {Doc : Type} (l n : Int) (args : Args) (tr te : List Doc)
    (pr : List String) :
    ∃ u : List (Ev Doc),
      mainWorkerTrace l n args tr te pr = u ++ [Ev.destroyProcessGroup] ∧
      Ev.destroyProcessGroup ∉ u := by
  refine ⟨[Ev.initProcessGroup "nccl" args.dist_url (args.node_count * n)
            (args.rank * n + l)]
      ++ (if ¬(l = -1 ∨ l = 0) then [Ev.barrier] else [])
      ++ (match args.train_file, args.test_file with
          | some trf, some tef =>
            [Ev.torchLoad (osPathJoin args.data_dir trf),
             Ev.torchLoad (osPathJoin args.data_dir tef)]
          | _, _ =>
            [Ev.cnndmSummarizationDataset (TOP_N args) args.data_dir,
             Ev.preprocessCall "greedy", Ev.preprocessCall "greedy"])
      ++ (if l = -1 ∨ l = 0 then [Ev.barrier] else [])
      ++ [Ev.fitCall (workerFitArgs l n args tr)]
      ++ [Ev.barrier]
      ++ (if (l = -1 ∨ l = 0) ∧ args.rank = 0 then
            [Ev.saveModel (osPathJoin args.output_dir args.model_filename),
             Ev.predictCall (pySlice0 te (TOP_N args)) 128,
             Ev.writeFile (osPathJoin args.output_dir args.summary_filename)
               (writeListToFile pr)]
          else []), ?_, ?_⟩
  · simp [mainWorkerTrace]
  · by_cases h1 : l = -1 ∨ l = 0 <;>
      by_cases h2 : args.rank = 0 <;>
      rcases args.train_file with _ | trf <;>
      rcases args.test_file with _ | tef <;>
      simp [h1, h2]

/-- Helper: the last event of every worker trace is destroy_process_group. -/
theorem trace_getLast {Doc : Type} (l n : Int) (args : Args) (tr te : List Doc)
    (pr : List String) :
    (mainWorkerTrace l n args tr te pr).getLast? = some Ev.destroyProcessGroup := by
  obtain ⟨u, hu, -⟩ := destroy_last l n args tr te pr
  rw [hu]
  exact List.getLast?_concat u

/-- Helper: for a spawned worker (node rank nonnegative, at least one device,
local rank below the device count), the global rank r * n + l is zero exactly
when the code guard "local_rank in [-1, 0] and args.rank == 0" holds. -/
theorem global_rank_zero_iff (r : Int) (n l : Nat) (hr : 0 ≤ r) (hn : 1 ≤ n)
    (hl : l < n) :
    (r * (n : Int) + (l : Int) = 0) ↔ (((l : Int) = -1 ∨ (l : Int) = 0) ∧ r = 0) := by
  constructor
  · intro h
    have hm : 0 ≤ r * (n : Int) := mul_nonneg hr (by positivity)
    have hl0 : (l : Int) = 0 := by omega
    have hrn : r * (n : Int) = 0 := by omega
    rcases mul_eq_zero.mp hrn with h0 | h0
    · exact ⟨Or.inr hl0, h0⟩
    · exfalso
      have : (1 : Int) ≤ (n : Int) := by exact_mod_cast hn
      omega
  · rintro ⟨hl', hr0⟩
    have hl0 : (l : Int) = 0 := by
      rcases hl' with h | h
      · exfalso; omega
      · exact h
    rw [hl0, hr0]
    ring

/-- Helper: Python slicing with stop -1 drops exactly the last element. -/
theorem pySlice0_neg_one {α : Type} (l : List α) : pySlice0 l (-1) = l.dropLast := by
  rw [pySlice0, List.dropLast_eq_take]
  have h : ((max ((l.length : Int) + -1) 0)).toNat = l.length - 1 := by omega
  simp only [if_pos (by norm_num : (-1 : Int) < 0)]
  norm_num [h]

/-- Helper: Python slicing with stop 10 takes at most the first ten elements. -/
theorem pySlice0_ten {α : Type} (l : List α) : pySlice0 l 10 = l.take 10 := by
  rw [pySlice0]
  simp only [if_neg (by norm_num : ¬(10 : Int) < 0)]
  by_cases h : l.length ≤ 10
  · have h1 : ((min (10 : Int) (l.length : Int))).toNat = l.length := by omega
    rw [h1, List.take_length, List.take_of_length_le h]
  · have h1 : ((min (10 : Int) (l.length : Int))).toNat = 10 := by omega
    rw [h1]

/-- Helper: the characters written by the _write_list_to_file loop starting from an
arbitrary already-written prefix. -/
theorem writeList_toList_aux (items : List String) (acc : String) :
    (items.foldl (fun a i => a ++ (i ++ "\n")) acc).toList
      = acc.toList ++ (items.map (fun s => s.toList ++ ['\n'])).flatten := by
  induction items generalizing acc with
  | nil => simp
  | cons s rest ih =>
    rw [List.foldl_cons, ih]
    simp [String.toList, String.data_append]

/-- Helper: the content written by _write_list_to_file is the concatenation, in list
order, of each item's characters followed by a single newline character. -/
theorem writeListToFile_toList (items : List String) :
    (writeListToFile items).toList
      = (items.map (fun s => s.toList ++ ['\n'])).flatten := by
  rw [writeListToFile, writeList_toList_aux]
  rfl

/-- Helper: when no item contains a newline, the written file has one newline per item. -/
theorem numLines_writeListToFile (items : List String)
    (h : ∀ s ∈ items, s.toList.count '\n' = 0) :
    numLines (writeListToFile items) = items.length := by
  rw [numLines, writeListToFile_toList]
  induction items with
  | nil => simp
  | cons s rest ih =>
    have hs : s.toList.count '\n' = 0 := h s (by simp)
    have ih2 := ih (fun x hx => h x (by simp [hx]))
    simp only [String.toList] at hs ih2
    simp [List.count_append, hs, ih2]

/-- Helper: runEvents on a trace whose prefix succeeds and whose next call raises
returns exactly that prefix together with the propagated error. -/
theorem runEvents_first_fail {Doc : Type} (failAt : Ev Doc → Option String)
    (t1 t2 : List (Ev Doc)) (e : Ev Doc) (msg : String)
    (hclean : ∀ x ∈ t1, failAt x = none) (hfail : failAt e = some msg) :
    runEvents failAt (t1 ++ e :: t2) = (t1, some msg) := by
  induction t1 with
  | nil => simp [runEvents, hfail]
  | cons a rest ih =>
    have ha : failAt a = none := hclean a (by simp)
    have ih2 := ih (fun x hx => hclean x (by simp [hx]))
    simp [runEvents, ha, ih2]

end DistExtSum

namespace DistExtSum

/-- Claim C1, counterexample: with the default full-run configuration spawned on two
GPUs per node (world size 2), the fit call of worker 0 receives warmup_steps = 5000,
not WARMUP_STEPS / world_size = 2500, so the warm-up step count is not scaled by the
world size. -/
theorem fit_warmup_not_scaled_cex :
    (workerFitArgs 0 2 exampleArgs ([] : List Unit)).warmup_steps ≠
      WARMUP_STEPS exampleArgs / ((exampleArgs.node_count * 2 : Int) : ℚ) := by
  have h1 : (workerFitArgs 0 2 exampleArgs ([] : List Unit)).warmup_steps = 5000 := by
    show WARMUP_STEPS exampleArgs = 5000
    rw [WARMUP_STEPS, if_pos (by decide : pyLower exampleArgs.quick_run = "false")]
    rfl
  have h2 : WARMUP_STEPS exampleArgs / ((exampleArgs.node_count * 2 : Int) : ℚ)
      = 2500 := by
    rw [WARMUP_STEPS, if_pos (by decide : pyLower exampleArgs.quick_run = "false")]
    show (5000 : ℚ) / ((1 * 2 : Int) : ℚ) = 2500
    norm_num
  rw [h1, h2]
  norm_num

/-- Claim C1, amended: for every parsed configuration, the single fit call of
main_worker receives max_steps = MAX_STEPS / world_size scaled by the world size, but
warmup_steps = WARMUP_STEPS unscaled, where MAX_STEPS and WARMUP_STEPS are
args.max_steps and args.warmup_steps when quick_run lowercases to "false", and
1e1 and 5e2 otherwise. -/
theorem fit_steps_scaling {Doc : Type} (l n : Int) (args : Args) (tr te : List Doc)
    (pr : List String) :
    (mainWorkerTrace l n args tr te pr).filter (fun e => isFitCall e) =
      [Ev.fitCall (workerFitArgs l n args tr)] ∧
    (workerFitArgs l n args tr).max_steps =
      MAX_STEPS args / ((args.node_count * n : Int) : ℚ) ∧
    (workerFitArgs l n args tr).warmup_steps = WARMUP_STEPS args ∧
    (pyLower args.quick_run = "false" →
      MAX_STEPS args = args.max_steps ∧ WARMUP_STEPS args = args.warmup_steps) ∧
    (pyLower args.quick_run ≠ "false" →
      MAX_STEPS args = 10 ∧ WARMUP_STEPS args = 500) := by
  refine ⟨fitCall_filter l n args tr te pr, rfl, rfl, ?_, ?_⟩
  · intro h
    simp [MAX_STEPS, WARMUP_STEPS, h]
  · intro h
    simp [MAX_STEPS, WARMUP_STEPS, h]

/-- Witness for the amended claim C1 at the default configuration on two GPUs. -/
theorem fit_steps_scaling_witness :
    pyLower exampleArgs.quick_run = "false" ∧
    (workerFitArgs 0 2 exampleArgs ([] : List Unit)).warmup_steps
      = WARMUP_STEPS exampleArgs ∧
    MAX_STEPS exampleArgs = exampleArgs.max_steps := by
  refine ⟨by decide, ?_, ?_⟩
  · exact (fit_steps_scaling 0 2 exampleArgs [] ([] : List Unit) []).2.2.1
  · exact ((fit_steps_scaling 0 2 exampleArgs [] ([] : List Unit) []).2.2.2.1
      (by decide)).1

/-- Claim C2: main spawns one worker per local device, and the worker with local rank
l's first call joins the process group with backend "nccl", init_method args.dist_url,
world_size = args.node_count * device_count and rank = args.rank * device_count + l. -/
theorem spawn_rank_world_size {Doc : Type} (r : Int) (n l : Nat) (args : Args)
    (tr te : List Doc) (pr : List String)
    (hr : 0 ≤ r) (hn : 1 ≤ n) (hl : l < n) (hargs : args.rank = r) :
    (mainTrace n args tr te pr).length = n ∧
    ((mainTrace n args tr te pr).getD l []).head? =
      some (Ev.initProcessGroup "nccl" args.dist_url
        (args.node_count * (n : Int)) (r * (n : Int) + (l : Int))) := by
  constructor
  · rw [mainTrace, List.length_map, List.length_range]
  · have h : (mainTrace n args tr te pr)[l]? =
        some (mainWorkerTrace (l : Int) (n : Int) args tr te pr) := by
      rw [mainTrace, List.getElem?_map, List.getElem?_range hl]
      rfl
    rw [List.getD_eq_getElem?_getD, h]
    simp [mainWorkerTrace, hargs]

/-- Witness for claim C2: the default configuration spawned on two devices,
second worker. -/
theorem spawn_rank_world_size_witness :
    ((mainTrace 2 exampleArgs ([] : List Unit) [] []).getD 1 []).head? =
      some (Ev.initProcessGroup "nccl" exampleArgs.dist_url
        (exampleArgs.node_count * (2 : Int)) (0 * (2 : Int) + (1 : Int))) :=
  (spawn_rank_world_size 0 2 1 exampleArgs [] [] [] (by decide) (by decide)
    (by decide) rfl).2

/-- Claim C3: each worker trace decomposes into exactly three barrier sites in order:
one taken only when local_rank is not in [-1, 0], placed before the data-acquisition
events; one taken only when local_rank is in [-1, 0], placed after data acquisition
and before the fit call; and one taken unconditionally after fit and before the
rank-0 finalization events; no other barrier occurs. -/
theorem barrier_structure {Doc : Type} (l n : Int) (args : Args) (tr te : List Doc)
    (pr : List String) :
    ∃ dataEvs tailEvs : List (Ev Doc),
      mainWorkerTrace l n args tr te pr =
        [Ev.initProcessGroup "nccl" args.dist_url (args.node_count * n)
           (args.rank * n + l)]
        ++ (if l = -1 ∨ l = 0 then [] else [Ev.barrier])
        ++ dataEvs
        ++ (if l = -1 ∨ l = 0 then [Ev.barrier] else [])
        ++ [Ev.fitCall (workerFitArgs l n args tr)]
        ++ [Ev.barrier]
        ++ tailEvs
        ++ [Ev.destroyProcessGroup] ∧
      Ev.barrier ∉ dataEvs ∧ Ev.barrier ∉ tailEvs := by
  refine ⟨(match args.train_file, args.test_file with
           | some trf, some tef =>
             [Ev.torchLoad (osPathJoin args.data_dir trf),
              Ev.torchLoad (osPathJoin args.data_dir tef)]
           | _, _ =>
             [Ev.cnndmSummarizationDataset (TOP_N args) args.data_dir,
              Ev.preprocessCall "greedy", Ev.preprocessCall "greedy"]),
         (if (l = -1 ∨ l = 0) ∧ args.rank = 0 then
             [Ev.saveModel (osPathJoin args.output_dir args.model_filename),
              Ev.predictCall (pySlice0 te (TOP_N args)) 128,
              Ev.writeFile (osPathJoin args.output_dir args.summary_filename)
                (writeListToFile pr)]
           else []), ?_, ?_, ?_⟩
  · by_cases h1 : l = -1 ∨ l = 0 <;> simp [mainWorkerTrace, h1]
  · rcases args.train_file with _ | trf <;> rcases args.test_file with _ | tef <;> simp
  · by_cases h : (l = -1 ∨ l = 0) ∧ args.rank = 0 <;> simp [h]

/-- Claim C4: the data-acquisition events of a worker are the two torch.load calls
on data_dir/train_file and data_dir/test_file exactly when both train_file and
test_file are provided; when either is absent the worker instead constructs the raw
CNNDMSummarizationDataset and preprocesses both splits with oracle_mode "greedy". -/
theorem data_loading_branch {Doc : Type} (l n : Int) (args : Args) (tr te : List Doc)
    (pr : List String) :
    (∀ trf tef, args.train_file = some trf → args.test_file = some tef →
      (mainWorkerTrace l n args tr te pr).filter (fun e => isDataEvent e) =
        [Ev.torchLoad (osPathJoin args.data_dir trf),
         Ev.torchLoad (osPathJoin args.data_dir tef)]) ∧
    (args.train_file = none ∨ args.test_file = none →
      (mainWorkerTrace l n args tr te pr).filter (fun e => isDataEvent e) =
        [Ev.cnndmSummarizationDataset (TOP_N args) args.data_dir,
         Ev.preprocessCall "greedy", Ev.preprocessCall "greedy"]) := by
  constructor
  · intro trf tef htr hte
    by_cases h1 : l = -1 ∨ l = 0 <;> by_cases h2 : args.rank = 0 <;>
      simp [mainWorkerTrace, h1, h2, htr, hte, isDataEvent]
  · intro h
    by_cases h1 : l = -1 ∨ l = 0 <;> by_cases h2 : args.rank = 0 <;>
      rcases htr : args.train_file with _ | trf <;>
      rcases hte : args.test_file with _ | tef <;>
      simp_all [mainWorkerTrace, isDataEvent]

/-- Witness for claim C4: both branches at concrete configurations. -/
theorem data_loading_branch_witness :
    (mainWorkerTrace 0 1 exampleArgsFiles ([] : List Unit) [] []).filter
        (fun e => isDataEvent e) =
      [Ev.torchLoad (osPathJoin exampleArgsFiles.data_dir "train_full.pt"),
       Ev.torchLoad (osPathJoin exampleArgsFiles.data_dir "test_full.pt")] ∧
    (mainWorkerTrace 0 1 exampleArgs ([] : List Unit) [] []).filter
        (fun e => isDataEvent e) =
      [Ev.cnndmSummarizationDataset (TOP_N exampleArgs) exampleArgs.data_dir,
       Ev.preprocessCall "greedy", Ev.preprocessCall "greedy"] :=
  ⟨(data_loading_branch 0 1 exampleArgsFiles [] [] []).1 _ _ rfl rfl,
   (data_loading_branch 0 1 exampleArgs [] [] []).2 (Or.inl rfl)⟩

/-- Claim C5: for a spawned worker, the rank-0 finalization actions (save_model,
predict, summary-file write, in that order) occur exactly when the worker's global
rank is zero and otherwise not at all, and every worker's final call is
destroy_process_group. -/
theorem rank_zero_finalization {Doc : Type} (r : Int) (n l : Nat) (args : Args)
    (tr te : List Doc) (pr : List String)
    (hr : 0 ≤ r) (hn : 1 ≤ n) (hl : l < n) (hargs : args.rank = r) :
    ((mainWorkerTrace (l : Int) (n : Int) args tr te pr).filter
        (fun e => isRankZeroAction e) =
      if r * (n : Int) + (l : Int) = 0 then
        [Ev.saveModel (osPathJoin args.output_dir args.model_filename),
         Ev.predictCall (pySlice0 te (TOP_N args)) 128,
         Ev.writeFile (osPathJoin args.output_dir args.summary_filename)
           (writeListToFile pr)]
      else []) ∧
    (mainWorkerTrace (l : Int) (n : Int) args tr te pr).getLast? =
      some Ev.destroyProcessGroup := by
  refine ⟨?_, trace_getLast (l : Int) (n : Int) args tr te pr⟩
  by_cases h : r * (n : Int) + (l : Int) = 0
  · have hc : ((l : Int) = -1 ∨ (l : Int) = 0) ∧ args.rank = 0 := by
      rw [hargs]
      exact (global_rank_zero_iff r n l hr hn hl).mp h
    rw [if_pos h]
    rcases htr : args.train_file with _ | trf <;>
      rcases hte : args.test_file with _ | tef <;>
      simp_all [mainWorkerTrace, isRankZeroAction]
  · have hc : ¬(((l : Int) = -1 ∨ (l : Int) = 0) ∧ args.rank = 0) := by
      rw [hargs]
      exact fun hx => h ((global_rank_zero_iff r n l hr hn hl).mpr hx)
    rw [if_neg h]
    by_cases h1 : (l : Int) = -1 ∨ (l : Int) = 0 <;>
      rcases htr : args.train_file with _ | trf <;>
      rcases hte : args.test_file with _ | tef <;>
      simp_all [mainWorkerTrace, isRankZeroAction]

/-- Witness for claim C5: on two devices, the worker with local rank 1 (global rank 1)
performs no finalization action. -/
theorem rank_zero_finalization_witness :
    (mainWorkerTrace ((1 : Nat) : Int) ((2 : Nat) : Int) exampleArgs
        ([] : List Unit) [] []).filter (fun e => isRankZeroAction e) = [] := by
  have h := (rank_zero_finalization 0 2 1 exampleArgs ([] : List Unit) [] []
    (by decide) (by decide) (by decide) rfl).1
  rw [h, if_neg (by decide)]

end DistExtSum

namespace DistExtSum

/-- Claim C6, counterexample: a generated summary string may itself contain a newline,
in which case the written file has more lines than there are predictions: for the
single prediction "a\nb" the file content is "a\nb\n" with two newline-terminated
lines. -/
theorem summary_line_count_cex :
    writeListToFile ["a\nb"] = "a\nb\n" ∧
    numLines (writeListToFile ["a\nb"]) ≠ (["a\nb"] : List String).length :=
  ⟨by decide, by decide⟩

/-- Claim C6, amended: the summary file content is the concatenation, in list order,
of each prediction followed by a single newline character; provided no prediction
contains a newline character, the number of lines equals the number of predictions. -/
theorem summary_file_newline_records (items : List String)
    (h : ∀ s ∈ items, s.toList.count '\n' = 0) :
    (writeListToFile items).toList
      = (items.map (fun s => s.toList ++ ['\n'])).flatten ∧
    numLines (writeListToFile items) = items.length :=
  ⟨writeListToFile_toList items, numLines_writeListToFile items h⟩

/-- Witness for the amended claim C6 on two newline-free predictions. -/
theorem summary_file_newline_records_witness :
    numLines (writeListToFile ["first summary", "second summary"]) = 2 :=
  (summary_file_newline_records ["first summary", "second summary"] (by decide)).2

/-- Claim C8: neither main_worker nor its callees are wrapped in exception handling:
under any fault model, if the first raising call of a worker's trace is some call e
(in particular any delegated call other than the final cleanup), execution stops
there, the calls actually executed are exactly those before e, the error propagates
uncaught, and cleanup's destroy_process_group is never among the executed calls. -/
theorem uncaught_error_propagation {Doc : Type} (l n : Int) (args : Args)
    (tr te : List Doc) (pr : List String) (failAt : Ev Doc → Option String)
    (t1 t2 : List (Ev Doc)) (e : Ev Doc) (msg : String)
    (hsplit : mainWorkerTrace l n args tr te pr = t1 ++ e :: t2)
    (hclean : ∀ x ∈ t1, failAt x = none)
    (hfail : failAt e = some msg)
    (_hne : e ≠ Ev.destroyProcessGroup) :
    runEvents failAt (mainWorkerTrace l n args tr te pr) = (t1, some msg) ∧
    Ev.destroyProcessGroup ∉ t1 := by
  constructor
  · rw [hsplit]
    exact runEvents_first_fail failAt t1 t2 e msg hclean hfail
  · obtain ⟨u, hu, hnotin⟩ := destroy_last l n args tr te pr
    rw [hsplit] at hu
    have hlen : t1.length ≤ u.length := by
      have h := congrArg List.length hu
      simp at h
      omega
    intro hmem
    apply hnotin
    have ht1 : t1 = (u ++ [Ev.destroyProcessGroup]).take t1.length := by
      rw [← hu]
      exact (List.take_left t1 (e :: t2)).symm
    rw [List.take_append_of_le_length hlen] at ht1
    rw [ht1] at hmem
    exact List.take_subset _ _ hmem

/-- Witness for claim C8: under the default single-GPU configuration with a fit call
that raises "RuntimeError", exactly the five calls before fit execute, the error
propagates, and cleanup never runs. -/
theorem uncaught_error_propagation_witness :
    runEvents failDemo (mainWorkerTrace 0 1 exampleArgs ([] : List Unit) [] [])
      = (demoPrefixEvents, some "RuntimeError") ∧
    Ev.destroyProcessGroup ∉ demoPrefixEvents :=
  uncaught_error_propagation 0 1 exampleArgs [] [] [] failDemo
    demoPrefixEvents
    [Ev.barrier,
     Ev.saveModel (osPathJoin exampleArgs.output_dir exampleArgs.model_filename),
     Ev.predictCall (pySlice0 [] (TOP_N exampleArgs)) 128,
     Ev.writeFile (osPathJoin exampleArgs.output_dir exampleArgs.summary_filename)
       (writeListToFile []),
     Ev.destroyProcessGroup]
    (Ev.fitCall (workerFitArgs 0 1 exampleArgs []))
    "RuntimeError"
    (by
      have hq : pyLower "false" = "false" := by decide
      simp [mainWorkerTrace, demoPrefixEvents, exampleArgs, TOP_N, hq])
    (by decide) rfl (fun h => Ev.noConfusion h)

/-- Claim C9: the import-time environment mutation sets NCCL_IB_DISABLE to "0",
OMP_NUM_THREADS to the decimal string of the device count and KMP_AFFINITY to
"verbose", and leaves every other environment variable unchanged; the mutation takes
no parsed configuration, so it depends on no CLI flag. -/
theorem import_env_assignments (device_count : Nat) (env : String → Option String)
    (key : String) (h1 : key ≠ "NCCL_IB_DISABLE") (h2 : key ≠ "OMP_NUM_THREADS")
    (h3 : key ≠ "KMP_AFFINITY") :
    moduleImportEnv device_count env "NCCL_IB_DISABLE" = some "0" ∧
    moduleImportEnv device_count env "OMP_NUM_THREADS" = some (toString device_count) ∧
    moduleImportEnv device_count env "KMP_AFFINITY" = some "verbose" ∧
    moduleImportEnv device_count env key = env key := by
  refine ⟨rfl, rfl, rfl, ?_⟩
  simp [moduleImportEnv, setEnv, h1, h2, h3]

/-- Witness for claim C9 with four devices, an empty environment and the unrelated
key "PATH". -/
theorem import_env_assignments_witness :
    moduleImportEnv 4 (fun _ => none) "NCCL_IB_DISABLE" = some "0" ∧
    moduleImportEnv 4 (fun _ => none) "OMP_NUM_THREADS" = some (toString 4) ∧
    moduleImportEnv 4 (fun _ => none) "KMP_AFFINITY" = some "verbose" ∧
    moduleImportEnv 4 (fun _ => none) "PATH"
      = (fun _ => none : String → Option String) "PATH" :=
  import_env_assignments 4 (fun _ => none) "PATH" (by decide) (by decide) (by decide)

/-- Claim C10: the slice passed to predict is ext_sum_test[0:TOP_N]; in a full run
(quick_run lowercasing to "false") TOP_N is -1 and the slice is every test document
except the last, of length one less than the test set; otherwise TOP_N is 10 and the
slice is at most the first ten test documents. -/
theorem predict_heldout_slice {Doc : Type} (l n : Int) (args : Args)
    (tr te : List Doc) (pr : List String)
    (hte : te ≠ []) (hlr : l = -1 ∨ l = 0) (hr : args.rank = 0) :
    (mainWorkerTrace l n args tr te pr).filter (fun e => isPredictCall e) =
      [Ev.predictCall (pySlice0 te (TOP_N args)) 128] ∧
    (pyLower args.quick_run = "false" →
      TOP_N args = -1 ∧
      pySlice0 te (TOP_N args) = te.dropLast ∧
      (pySlice0 te (TOP_N args)).length = te.length - 1) ∧
    (pyLower args.quick_run ≠ "false" →
      TOP_N args = 10 ∧
      pySlice0 te (TOP_N args) = te.take 10 ∧
      (pySlice0 te (TOP_N args)).length ≤ 10) := by
  refine ⟨?_, ?_, ?_⟩
  · rcases htr : args.train_file with _ | trf <;>
      rcases hte2 : args.test_file with _ | tef <;>
      simp [mainWorkerTrace, hlr, hr, htr, hte2, isPredictCall]
  · intro hq
    have ht : TOP_N args = -1 := by rw [TOP_N, if_pos hq]
    refine ⟨ht, ?_, ?_⟩
    · rw [ht, pySlice0_neg_one]
    · rw [ht, pySlice0_neg_one, List.length_dropLast]
  · intro hq
    have ht : TOP_N args = 10 := by rw [TOP_N, if_neg hq]
    refine ⟨ht, ?_, ?_⟩
    · rw [ht, pySlice0_ten]
    · rw [ht, pySlice0_ten, List.length_take]
      exact min_le_left _ _

/-- Witness for claim C10: a three-document test set in a full run is evaluated on
its first two documents only. -/
theorem predict_heldout_slice_witness :
    pySlice0 [(), (), ()] (TOP_N exampleArgs) = [(), ()] := by
  have h := ((predict_heldout_slice 0 1 exampleArgs ([] : List Unit)
    [(), (), ()] [] (by decide) (Or.inr rfl) rfl).2.1 (by decide)).2.1
  rw [h]
  rfl

end DistExtSum

namespace DistExtSum

/-- Claim C7: the save_every keyword passed to the single fit call equals
SAVE_EVERY = 1000 exactly when the worker's global rank args.rank * n + l is in
[-1, 0], and equals -1 for every other rank, so periodic checkpointing during
training is enabled only on rank 0. -/
theorem save_every_rank_zero {Doc : Type} (l n : Int) (args : Args) (tr te : List Doc)
    (pr : List String) :
    (mainWorkerTrace l n args tr te pr).filter (fun e => isFitCall e) =
      [Ev.fitCall (workerFitArgs l n args tr)] ∧
    SAVE_EVERY = 1000 ∧
    ((workerFitArgs l n args tr).save_every = SAVE_EVERY ↔
      (args.rank * n + l = -1 ∨ args.rank * n + l = 0)) ∧
    (¬(args.rank * n + l = -1 ∨ args.rank * n + l = 0) →
      (workerFitArgs l n args tr).save_every = -1) := by
  refine ⟨fitCall_filter l n args tr te pr, rfl, ?_, ?_⟩
  · by_cases h : args.rank * n + l = -1 ∨ args.rank * n + l = 0 <;>
      simp [workerFitArgs, h, SAVE_EVERY]
  · intro h
    simp [workerFitArgs, h]

/-- Witness for claim C7: on two devices, the worker with global rank 1 passes
save_every = -1 to fit. -/
theorem save_every_rank_zero_witness :
    (workerFitArgs 1 2 exampleArgs ([] : List Unit)).save_every = -1 :=
  (save_every_rank_zero 1 2 exampleArgs ([] : List Unit) [] []).2.2.2 (by decide)

end DistExtSum
